import Mathlib

/-!
Verification of the weather_app repository (Amyat103/411_weather_app) against
its natural-language specification.

Shallow embedding notes:
- Python floats (latitude, longitude, temperature, wind speed, rain) are
  carried opaquely: no claim computes with their fractional parts, so they are
  modelled as Int.  The only numeric branch in the source is the
  current_wind_speed < 0 check, which Int captures.
- Fallible Python code (functions raising ValueError / AttributeError /
  SQLAlchemy errors) is modelled with Except Err; the distinct failure kinds
  of the spec become distinct Err constructors.
- The redis client (weather_app/clients/redis_client.py) and the mongo client
  (weather_app/clients/mongo_client.py) are repository modules not present
  under src/; their key-value / document-store capabilities are modelled from
  the spec (section 6 of spec.md).
- In favorites_model.py the class FavoritesModel is defined twice; the second
  definition (file lines 246-537) shadows the first and is the one embedded
  here, matching the line numbers the claims cite.
-/

/-- Failure kinds surfaced by the core (spec section 7), plus the runtime
faults the source actually raises (AttributeError and SQLAlchemy's
unknown-column error). -/
inductive Err where
  | notFound
  | alreadyDeleted
  | duplicateName
  | valueError
  | attributeError
  | invalidRequest
  | invalidId
  | notInFavorites
  | invalidIndex
  | emptyList
  | duplicateId
  | userNotFound
deriving Repr, DecidableEq

/-- A Python scalar value, used for the weather snapshot lists. -/
inductive PyVal where
  | intV : Int → PyVal
  | strV : String → PyVal
  | boolV : Bool → PyVal
deriving Repr, DecidableEq

/-- Embeds the Locations entity (location_model.py lines 17-28): columns id,
location (the unique name), latitude, longitude, current_temperature,
current_wind_speed, current_rain, deleted (default false). -/
structure Location where
  id : Int
  location : String
  latitude : Int
  longitude : Int
  current_temperature : Int
  current_wind_speed : Int
  current_rain : Int
  deleted : Bool
deriving Repr, DecidableEq

/-- Modelled from the spec: the cache capability of section 6
(get-hash, set-hash, get-string, set-string, delete; all field values are
strings on the wire).  The concrete client weather_app/clients/redis_client.py
is not among the repository sources under src/. -/
structure Cache where
  hashes : List (String × List (String × String))
  strings : List (String × String)
deriving Repr, DecidableEq

/-- Modelled from the spec: redis HGETALL returns the stored field map, or an
empty map when the key is absent. -/
def hgetall (c : Cache) (key : String) : List (String × String) :=
  (List.lookup key c.hashes).getD []

/-- Replace the binding for a key in an association list, or append it. -/
def setAssoc (l : List (String × α)) (key : String) (v : α) : List (String × α) :=
  if l.any (fun p => p.1 == key) then
    l.map (fun p => if p.1 == key then (key, v) else p)
  else
    l ++ [(key, v)]

/-- Modelled from the spec: redis HSET of a whole field map. -/
def hset (c : Cache) (key : String) (fields : List (String × String)) : Cache :=
  Cache.mk (setAssoc c.hashes key fields) c.strings

/-- Modelled from the spec: redis GET of a string key. -/
def getString (c : Cache) (key : String) : Option String :=
  List.lookup key c.strings

/-- Modelled from the spec: redis SET of a string key. -/
def setString (c : Cache) (key v : String) : Cache :=
  Cache.mk c.hashes (setAssoc c.strings key v)

/-- Modelled from the spec: redis DEL removes the key of either kind. -/
def delKey (c : Cache) (key : String) : Cache :=
  Cache.mk (c.hashes.filter (fun p => p.1 != key))
           (c.strings.filter (fun p => p.1 != key))

/-- Python str.lower() on the ASCII field data: char-wise lower-casing. -/
def pyLower (s : String) : String := String.mk (s.data.map Char.toLower)

/-- The relational rows plus the cache: the state the location model acts on. -/
structure LocState where
  db : List Location
  cache : Cache
deriving Repr, DecidableEq

/-- Embeds cls.query.filter_by(id=location_id).first(). -/
def firstRowById (db : List Location) (location_id : Int) : Option Location :=
  (db.filter (fun r => r.id == location_id)).head?

/-- Python str(bool): the literal text True / False. -/
def pyStr (b : Bool) : String := if b then "True" else "False"

/-- Embeds the mapping {k: str(v) for k, v in asdict(location).items()} used
when populating the cache (location_model.py line 124): every scalar field
encoded as a string, in dataclass field order. -/
def encodeLocation (l : Location) : List (String × String) :=
  [("id", toString l.id),
   ("location", l.location),
   ("latitude", toString l.latitude),
   ("longitude", toString l.longitude),
   ("current_temperature", toString l.current_temperature),
   ("current_wind_speed", toString l.current_wind_speed),
   ("current_rain", toString l.current_rain),
   ("deleted", pyStr l.deleted)]

/-- The dict returned by get_location_by_id: the string-valued fields with the
deleted entry re-interpreted as a boolean (the source overwrites
location_data[deleted] with a bool before returning). -/
structure Snapshot where
  fields : List (String × String)
  deleted : Bool
deriving Repr, DecidableEq

/-- SQLAlchemy autoincrement primary key: one more than the largest id. -/
def next_id (db : List Location) : Int :=
  (db.foldl (fun m r => max m r.id) 0) + 1

/-- Embeds Locations.create_location (location_model.py lines 34-65):
the dataclass __post_init__ rejects negative wind speed; the unique
constraint on the name column surfaces as IntegrityError, re-raised as
the duplicate-name ValueError; otherwise the row is committed with
deleted defaulting to false. -/
def create_location (st : LocState) (location : String)
    (latitude longitude current_temperature current_wind_speed current_rain : Int) :
    Except Err LocState :=
  if current_wind_speed < 0 then
    Except.error Err.valueError
  else if st.db.any (fun r => r.location == location) then
    Except.error Err.duplicateName
  else
    Except.ok (LocState.mk
      (st.db ++ [Location.mk (next_id st.db) location latitude longitude
                  current_temperature current_wind_speed current_rain false])
      st.cache)

/-- Embeds Locations.delete_meal (location_model.py lines 67-88): NotFound if
no row with the id, AlreadyDeleted if the deleted flag is already set, else
the row is marked deleted and committed.  The module tries to register
update_cache_for_meal as an after_update listener, but the registration
(line 250) names the undefined class Meals, so no cache side effect runs
(importing the module even raises NameError); the cache is left untouched. -/
def delete_meal (st : LocState) (location_id : Int) : Except Err LocState :=
  match firstRowById st.db location_id with
  | none => Except.error Err.notFound
  | some location =>
    if location.deleted then Except.error Err.alreadyDeleted
    else Except.ok (LocState.mk
      (st.db.map (fun r => if r.id == location_id then
        Location.mk r.id r.location r.latitude r.longitude
          r.current_temperature r.current_wind_speed r.current_rain true
        else r))
      st.cache)

/-- Embeds Locations.get_location_by_id (location_model.py lines 90-125).
On a cache hit the field strings are decoded, the deleted string is
lower-cased and compared to true, and a deleted entry fails NotFound.
On a cache miss the row is queried; the guard on line 118 reads
if not Locations or location.deleted where location is the optional
NAME parameter (a str or None), neither of which has a deleted
attribute - so whenever the row exists the guard itself raises
AttributeError, and the populate-and-return code on lines 122-125 is
unreachable. -/
def get_location_by_id (st : LocState) (location_id : Int)
    (location : Option String) : Except Err Snapshot :=
  let cache_key := "location_" ++ toString location_id
  let cached_location := hgetall st.cache cache_key
  if cached_location = [] then
    match firstRowById st.db location_id with
    | none => Except.error Err.notFound
    | some _ => Except.error Err.attributeError
  else
    if pyLower ((List.lookup "deleted" cached_location).getD "false") = "true" then
      Except.error Err.notFound
    else
      Except.ok (Snapshot.mk (cached_location.filter (fun p => p.1 != "deleted")) false)

/-- Embeds Locations.get_meal_by_name (location_model.py lines 127-161).
On a name-index cache hit it calls cls.get_meal_by_id, a method that does
not exist on the class (the id lookup is named get_location_by_id), so
AttributeError is raised.  On a miss it runs
cls.query.filter_by(meal=meal_name), but the entity has no column named
meal, so SQLAlchemy raises its unknown-property error.  Neither branch can
return a snapshot or the NotFound ValueError the docstring promises. -/
def get_meal_by_name (st : LocState) (meal_name : String) : Except Err Snapshot :=
  let cache_key := "meal_name:" ++ meal_name
  match getString st.cache cache_key with
  | some _ => Except.error Err.attributeError
  | none => Except.error Err.invalidRequest

/-- Embeds Locations.update_location (location_model.py lines 163-183):
NotFound if the row is absent or soft-deleted; otherwise the function only
logs and commits - the body contains no loop applying kwargs and no check of
attribute names, so the keyword arguments are ignored entirely and the state
is committed unchanged. -/
def update_location (st : LocState) (location_id : Int)
    (kwargs : List (String × String)) : Except Err LocState :=
  match firstRowById st.db location_id with
  | none => Except.error Err.notFound
  | some location =>
    if location.deleted then Except.error Err.notFound
    else Except.ok st

/-- Embeds update_cache_for_meal (location_model.py lines 216-247): deletes
the key meal:{id} when the target is deleted, else overwrites that key with
the encoded fields.  Note the key disagrees with the location_{id} key used
by the read path. -/
def update_cache_for_meal (cache : Cache) (target : Location) : Cache :=
  let cache_key := "meal:" ++ toString target.id
  if target.deleted then delKey cache cache_key
  else hset cache cache_key (encodeLocation target)

/-! ### Concrete fixtures used by the location-model claims -/

def cacheEmpty : Cache := Cache.mk [] []

def stEmpty : LocState := LocState.mk [] cacheEmpty

def bostonRow : Location := Location.mk 1 "Boston" 42 71 34 15 0 false

def bostonDeleted : Location := Location.mk 1 "Boston" 42 71 34 15 0 true

def stBoston : LocState := LocState.mk [bostonRow] cacheEmpty

def stBostonCached : LocState :=
  LocState.mk [bostonRow] (Cache.mk [("location_1", encodeLocation bostonRow)] [])

/-! ### Claims C1 - C5 -/

/-- Claim C1: the claim says update(id, attribute=value, ...) applies each
key as a field assignment and fails with InvalidAttribute on an unknown
attribute.  Evaluating the code at the failing input: updating the stored
temperature of the existing row 1 succeeds but returns the state completely
unchanged (no field applied), and an update naming a nonexistent attribute
also succeeds silently instead of failing; only the NotFound behaviour for
absent or soft-deleted rows matches the claim. -/
theorem c1_update_ignores_kwargs :
    update_location stBoston 1 [("current_temperature", "28")] = Except.ok stBoston ∧
    update_location stBoston 1 [("not_an_attribute", "5")] = Except.ok stBoston ∧
    update_location stBoston 999 [("current_temperature", "28")] = Except.error Err.notFound ∧
    update_location (LocState.mk [bostonDeleted] cacheEmpty) 1 [("current_temperature", "28")] =
      Except.error Err.notFound := by
  exact ⟨rfl, rfl, rfl, rfl⟩

/-- Claim C2: the claim says create followed by get_by_id returns the created
snapshot and populates the cache from a fresh store read.  Evaluating the
code at the failing input: create succeeds, but the first get_by_id (cache
miss) raises AttributeError, because line 118 evaluates location.deleted on
the optional name parameter (None here) instead of on the queried row; no
snapshot is returned and the cache is never populated. -/
theorem c2_create_then_get_crashes :
    create_location stEmpty "Boston" 42 71 34 15 0 = Except.ok stBoston ∧
    get_location_by_id stBoston 1 none = Except.error Err.attributeError := by
  exact ⟨rfl, rfl⟩

/-- Claim C3: the claim says soft_delete removes the id-keyed cache entry so
every later get_by_id fails NotFound.  Evaluating the code at the failing
input: with row 1 cached under location_1, delete_meal marks the row deleted
(and NotFound / AlreadyDeleted behave as claimed), but even running the
intended listener update_cache_for_meal only deletes the key meal:1, so the
location_1 entry survives and the next get_by_id returns the stale
non-deleted snapshot instead of failing NotFound.  (The listener is in fact
never registered: line 250 passes the undefined name Meals to event.listen,
which makes the module itself fail to import.) -/
theorem c3_delete_leaves_stale_cache :
    delete_meal stBostonCached 1 = Except.ok (LocState.mk [bostonDeleted] stBostonCached.cache) ∧
    update_cache_for_meal stBostonCached.cache bostonDeleted = stBostonCached.cache ∧
    get_location_by_id (LocState.mk [bostonDeleted] stBostonCached.cache) 1 none =
      Except.ok (Snapshot.mk ((encodeLocation bostonRow).filter (fun p => p.1 != "deleted")) false) ∧
    delete_meal (LocState.mk [bostonDeleted] cacheEmpty) 1 = Except.error Err.alreadyDeleted ∧
    delete_meal stEmpty 1 = Except.error Err.notFound := by
  exact ⟨rfl, rfl, rfl, rfl, rfl⟩

/-- Claim C4: the claim says get_by_name resolves the name through the cache
name-index or a store lookup and then delegates to get_by_id.  Evaluating
the code at the failing input: with the association meal_name:Boston -> 1
cached, get_meal_by_name raises AttributeError because it delegates to
cls.get_meal_by_id, which does not exist; with no cached association it
raises SQLAlchemy's unknown-property error because it filters on a column
named meal that the entity does not have.  Neither branch can return a
snapshot or NotFound, and the callers (app.py, the tests) even invoke it as
get_location_by_name, a method that does not exist at all. -/
theorem c4_get_by_name_crashes :
    get_meal_by_name (LocState.mk [bostonRow] (Cache.mk [] [("meal_name:Boston", "1")])) "Boston" =
      Except.error Err.attributeError ∧
    get_meal_by_name stBoston "Boston" = Except.error Err.invalidRequest := by
  exact ⟨rfl, rfl⟩

/-- Claim C5: for every id-keyed cache entry whose stored deleted field,
lower-cased and compared to true, is true, get_location_by_id fails with
NotFound instead of returning the decoded map: the cache-hit path never
returns a snapshot of a deleted location. -/
theorem c5_cache_never_returns_deleted (st : LocState) (location_id : Int)
    (nameOpt : Option String)
    (hin : hgetall st.cache ("location_" ++ toString location_id) ≠ [])
    (hdel : pyLower ((List.lookup "deleted"
        (hgetall st.cache ("location_" ++ toString location_id))).getD "false")
        = "true") :
    get_location_by_id st location_id nameOpt = Except.error Err.notFound := by
  unfold get_location_by_id
  simp only [if_neg hin, if_pos hdel]

/-- Witness for C5 at a concrete cached deleted entry. -/
theorem c5_cache_never_returns_deleted_witness :
    get_location_by_id
      (LocState.mk [] (Cache.mk [("location_1", encodeLocation bostonDeleted)] [])) 1 none =
      Except.error Err.notFound :=
  c5_cache_never_returns_deleted
    (LocState.mk [] (Cache.mk [("location_1", encodeLocation bostonDeleted)] [])) 1 none
    (by decide) (by decide)

/-! ## Favorites model (favorites_model.py, second class definition) -/

/-- Embeds FavoritesModel (favorites_model.py lines 262-277): the list of
favorited locations plus the 1-indexed current-favorite position, which the
constructor sets to 1. -/
structure FavoritesModel where
  favorite_location : Int
  favorites : List Location
deriving Repr, DecidableEq

/-- The fresh model built by FavoritesModel.__init__. -/
def favInit : FavoritesModel := FavoritesModel.mk 1 []

/-- The ids of the favorites, in list order. -/
def fav_ids (m : FavoritesModel) : List Int := m.favorites.map (fun l => l.id)

/-- Embeds FavoritesModel.check_if_empty (lines 482-491). -/
def check_if_empty (m : FavoritesModel) : Except Err Unit :=
  if m.favorites = [] then Except.error Err.emptyList else Except.ok ()

/-- Embeds FavoritesModel.validate_location_id (lines 433-459): the id is
coerced to int (inputs here are already integers), rejected when negative,
and, when check_in_favorites is set, rejected when absent from the list. -/
def validate_location_id (m : FavoritesModel) (location_id : Int)
    (check_in_favorites : Bool) : Except Err Int :=
  if location_id < 0 then Except.error Err.invalidId
  else if check_in_favorites && !((fav_ids m).contains location_id) then
    Except.error Err.notInFavorites
  else Except.ok location_id

/-- Embeds FavoritesModel.validate_index (lines 461-480): 1-indexed bounds
check against the current length. -/
def validate_index (m : FavoritesModel) (index : Int) : Except Err Int :=
  if index < 1 ∨ (m.favorites.length : Int) < index then Except.error Err.invalidIndex
  else Except.ok index

/-- Embeds FavoritesModel.add_location_to_favorites (lines 283-307): the
argument here is already a Locations value (the dict branch re-builds one),
the id is validated without the membership check, a present id fails as a
duplicate, otherwise the location is appended at the end. -/
def add_location_to_favorites (m : FavoritesModel) (location : Location) :
    Except Err FavoritesModel :=
  match validate_location_id m location.id false with
  | Except.error e => Except.error e
  | Except.ok location_id =>
    if (fav_ids m).contains location_id then Except.error Err.duplicateId
    else Except.ok (FavoritesModel.mk m.favorite_location (m.favorites ++ [location]))

/-- Embeds FavoritesModel.remove_location_by_location_id (lines 309-323). -/
def remove_location_by_location_id (m : FavoritesModel) (location_id : Int) :
    Except Err FavoritesModel :=
  match check_if_empty m with
  | Except.error e => Except.error e
  | Except.ok _ =>
    match validate_location_id m location_id true with
    | Except.error e => Except.error e
    | Except.ok i =>
      Except.ok (FavoritesModel.mk m.favorite_location
        (m.favorites.filter (fun l => l.id != i)))

/-- Embeds FavoritesModel.remove_location_by_index (lines 325-340). -/
def remove_location_by_index (m : FavoritesModel) (index : Int) :
    Except Err FavoritesModel :=
  match check_if_empty m with
  | Except.error e => Except.error e
  | Except.ok _ =>
    match validate_index m index with
    | Except.error e => Except.error e
    | Except.ok i =>
      Except.ok (FavoritesModel.mk m.favorite_location
        (m.favorites.eraseIdx (i - 1).toNat))

/-- Embeds FavoritesModel.clear_favorites (lines 342-349): empties the list
unconditionally (an already-empty list only logs a warning); the
current-favorite position is not touched. -/
def clear_favorites (m : FavoritesModel) : FavoritesModel :=
  FavoritesModel.mk m.favorite_location []

/-- Embeds FavoritesModel.get_all_favorites (lines 355-361). -/
def get_all_favorites (m : FavoritesModel) : Except Err (List Location) :=
  match check_if_empty m with
  | Except.error e => Except.error e
  | Except.ok _ => Except.ok m.favorites

/-- Embeds FavoritesModel.get_location_by_index (lines 378-392); the index
has been validated, so the final lookup cannot miss. -/
def get_location_by_index (m : FavoritesModel) (index : Int) : Except Err Location :=
  match check_if_empty m with
  | Except.error e => Except.error e
  | Except.ok _ =>
    match validate_index m index with
    | Except.error e => Except.error e
    | Except.ok i =>
      match m.favorites.get? (i - 1).toNat with
      | some l => Except.ok l
      | none => Except.error Err.invalidIndex

/-- Embeds FavoritesModel.get_current_favorite (lines 394-399). -/
def get_current_favorite (m : FavoritesModel) : Except Err Location :=
  match check_if_empty m with
  | Except.error e => Except.error e
  | Except.ok _ => get_location_by_index m m.favorite_location

/-- Embeds FavoritesModel.set_favorite_by_index (lines 407-408): stores the
index with no validation of any kind. -/
def set_favorite_by_index (m : FavoritesModel) (index : Int) : FavoritesModel :=
  FavoritesModel.mk index m.favorites

/-- Python attribute access on a Locations value: the dataclass fields, and
AttributeError for any other name (the entity has no current_uvi field and
no to_dict method). -/
def locAttr (l : Location) (attr : String) : Except Err PyVal :=
  if attr = "id" then Except.ok (PyVal.intV l.id)
  else if attr = "location" then Except.ok (PyVal.strV l.location)
  else if attr = "latitude" then Except.ok (PyVal.intV l.latitude)
  else if attr = "longitude" then Except.ok (PyVal.intV l.longitude)
  else if attr = "current_temperature" then Except.ok (PyVal.intV l.current_temperature)
  else if attr = "current_wind_speed" then Except.ok (PyVal.intV l.current_wind_speed)
  else if attr = "current_rain" then Except.ok (PyVal.intV l.current_rain)
  else if attr = "deleted" then Except.ok (PyVal.boolV l.deleted)
  else Except.error Err.attributeError

/-- Embeds FavoritesModel.get_weather_for_location (lines 414-418): builds
the fixed-order list [location, latitude, longitude, current_temperature,
current_wind_speed, current_uvi] by attribute access on the entity. -/
def get_weather_for_location (location : Location) : Except Err (List PyVal) := do
  let a ← locAttr location "location"
  let b ← locAttr location "latitude"
  let c ← locAttr location "longitude"
  let d ← locAttr location "current_temperature"
  let e ← locAttr location "current_wind_speed"
  let f ← locAttr location "current_uvi"
  Except.ok [a, b, c, d, e, f]

/-- The loop body of get_weather_for_all_favorites: list concatenation of
each favorite's weather list, left to right. -/
def weatherConcat : List Location → Except Err (List PyVal)
  | [] => Except.ok []
  | l :: rest =>
    match get_weather_for_location l with
    | Except.error e => Except.error e
    | Except.ok w =>
      match weatherConcat rest with
      | Except.error e => Except.error e
      | Except.ok ws => Except.ok (w ++ ws)

/-- Embeds FavoritesModel.get_weather_for_all_favorites (lines 420-424). -/
def get_weather_for_all_favorites (m : FavoritesModel) : Except Err (List PyVal) :=
  weatherConcat m.favorites

/-- The public mutating operations of the favorites list, for stating
invariants over operation sequences. -/
inductive FavOp where
  | addLoc (l : Location)
  | removeId (location_id : Int)
  | removeIdx (index : Int)
  | clearOp
  | setCurrent (index : Int)
deriving Repr, DecidableEq

/-- Whether the operation is the one that writes the current-favorite
position. -/
def writes_current : FavOp → Bool
  | FavOp.setCurrent _ => true
  | _ => false

/-- Runs one operation; a raised error leaves the model unchanged, as in the
source, where every raise happens before any mutation. -/
def applyOp (m : FavoritesModel) (op : FavOp) : FavoritesModel :=
  match op with
  | FavOp.addLoc l =>
    match add_location_to_favorites m l with
    | Except.ok m2 => m2
    | Except.error _ => m
  | FavOp.removeId i =>
    match remove_location_by_location_id m i with
    | Except.ok m2 => m2
    | Except.error _ => m
  | FavOp.removeIdx i =>
    match remove_location_by_index m i with
    | Except.ok m2 => m2
    | Except.error _ => m
  | FavOp.clearOp => clear_favorites m
  | FavOp.setCurrent i => set_favorite_by_index m i

/-- Runs a sequence of operations from left to right. -/
def applyOps (m : FavoritesModel) : List FavOp → FavoritesModel
  | [] => m
  | op :: rest => applyOps (applyOp m op) rest

/-! ## Session persistence bridge (mongo_session_model.py) -/

/-- Modelled from the spec: the document-store capability of section 6 and
the session document of section 3, keyed by user id and holding the ordered
list of favorite-location representations.  The concrete client
weather_app/clients/mongo_client.py is not among the repository sources
under src/. -/
structure SessionStore where
  docs : List (Int × List (List (String × String)))
deriving Repr, DecidableEq

/-- Modelled from the spec: the matched-count of an update-one call filtered
on the user id. -/
def matchedCount (store : SessionStore) (user_id : Int) : Nat :=
  (store.docs.filter (fun p => p.1 == user_id)).length

/-- Modelled from the spec: the update-one write of the favorites array into
the documents matching the user id (no upsert). -/
def setFavoritesDoc (store : SessionStore) (user_id : Int)
    (favs : List (List (String × String))) : SessionStore :=
  SessionStore.mk (store.docs.map (fun p => if p.1 == user_id then (p.1, favs) else p))

/-- Modelled from the spec: the storable representation of one favorite, id
plus the scalar fields (section 3, session document).  The serialization
helper favorite.to_dict() called by logout_user is not defined in any source
under src/ (the database base module weather_app/db.py is absent), so it is
modelled from the spec's words. -/
def to_dict (l : Location) : List (String × String) :=
  [("id", toString l.id),
   ("location", l.location),
   ("latitude", toString l.latitude),
   ("longitude", toString l.longitude),
   ("current_temperature", toString l.current_temperature),
   ("current_wind_speed", toString l.current_wind_speed),
   ("current_rain", toString l.current_rain),
   ("deleted", pyStr l.deleted)]

/-- Embeds logout_user (mongo_session_model.py lines 43-80): reads the
current favorites (get_all_favorites raises EmptyList on an empty model,
before any write), serializes them in list order, performs the update-only
write, fails with the user-not-found ValueError when no document matched
(leaving the favorites untouched), and clears the favorites when it did. -/
def logout_user (store : SessionStore) (user_id : Int)
    (favorite_model : FavoritesModel) : Except Err (SessionStore × FavoritesModel) :=
  match get_all_favorites favorite_model with
  | Except.error e => Except.error e
  | Except.ok favs =>
    let favorites_data := favs.map to_dict
    if matchedCount store user_id = 0 then Except.error Err.userNotFound
    else Except.ok (setFavoritesDoc store user_id favorites_data,
                    clear_favorites favorite_model)

/-! ### Concrete fixtures used by the favorites and session claims -/

def nyRow : Location := Location.mk 2 "New York" 40 74 28 10 0 false

def favTwo : FavoritesModel := FavoritesModel.mk 1 [bostonRow, nyRow]

def negIdLoc : Location := Location.mk (-1) "Atlantis" 0 0 0 0 0 false

def store7 : SessionStore := SessionStore.mk [(7, [])]

/-! ### Helper lemmas about the favorites operations -/

/-- Closed form of add_location_to_favorites: InvalidId for a negative id,
DuplicateId for a present id, otherwise an append at the end. -/
theorem add_spec (m : FavoritesModel) (l : Location) :
    add_location_to_favorites m l =
      if l.id < 0 then Except.error Err.invalidId
      else if l.id ∈ fav_ids m then Except.error Err.duplicateId
      else Except.ok (FavoritesModel.mk m.favorite_location (m.favorites ++ [l])) := by
  unfold add_location_to_favorites validate_location_id
  by_cases h0 : l.id < 0
  · simp [h0]
  · simp [h0]

/-- A successful remove-by-id keeps the current position and filters the
list. -/
theorem removeId_ok_shape (m : FavoritesModel) (i : Int) (m2 : FavoritesModel)
    (h : remove_location_by_location_id m i = Except.ok m2) :
    m2 = FavoritesModel.mk m.favorite_location
      (m.favorites.filter (fun l => l.id != i)) := by
  unfold remove_location_by_location_id at h
  cases hc : check_if_empty m with
  | error e => rw [hc] at h; cases h
  | ok u =>
    rw [hc] at h
    cases hv : validate_location_id m i true with
    | error e => rw [hv] at h; cases h
    | ok j =>
      rw [hv] at h
      have hj : j = i := by
        unfold validate_location_id at hv
        split at hv
        · cases hv
        · split at hv
          · cases hv
          · cases hv; rfl
      cases h
      rw [hj]

/-- A successful remove-by-index keeps the current position and erases the
1-indexed entry. -/
theorem removeIdx_ok_shape (m : FavoritesModel) (i : Int) (m2 : FavoritesModel)
    (h : remove_location_by_index m i = Except.ok m2) :
    m2 = FavoritesModel.mk m.favorite_location
      (m.favorites.eraseIdx (i - 1).toNat) := by
  unfold remove_location_by_index at h
  cases hc : check_if_empty m with
  | error e => rw [hc] at h; cases h
  | ok u =>
    rw [hc] at h
    cases hv : validate_index m i with
    | error e => rw [hv] at h; cases h
    | ok j =>
      rw [hv] at h
      have hj : j = i := by
        unfold validate_index at hv
        split at hv
        · cases hv
        · cases hv; rfl
      cases h
      rw [hj]

/-- Every single operation preserves the no-duplicate-ids invariant. -/
theorem nodup_applyOp (m : FavoritesModel) (op : FavOp)
    (h : (fav_ids m).Nodup) : (fav_ids (applyOp m op)).Nodup := by
  cases op with
  | addLoc l =>
    simp only [applyOp, add_spec]
    by_cases h0 : l.id < 0
    · simp [h0, h]
    · by_cases hc : l.id ∈ fav_ids m
      · simp [h0, hc, h]
      · rw [if_neg h0, if_neg hc]
        show (fav_ids (FavoritesModel.mk m.favorite_location (m.favorites ++ [l]))).Nodup
        have hrw : fav_ids (FavoritesModel.mk m.favorite_location (m.favorites ++ [l]))
            = fav_ids m ++ [l.id] := by
          simp [fav_ids]
        rw [hrw, List.nodup_append]
        refine ⟨h, List.nodup_singleton _, ?_⟩
        intro a ha hb
        rw [List.mem_singleton] at hb
        rw [hb] at ha
        exact hc ha
  | removeId i =>
    simp only [applyOp]
    cases hr : remove_location_by_location_id m i with
    | error e => exact h
    | ok m2 =>
      have hshape := removeId_ok_shape m i m2 hr
      have hrw : fav_ids m2
          = (m.favorites.filter (fun l => l.id != i)).map (fun l => l.id) := by
        rw [hshape]; rfl
      rw [hrw]
      exact ((List.filter_sublist _).map _).nodup h
  | removeIdx i =>
    simp only [applyOp]
    cases hr : remove_location_by_index m i with
    | error e => exact h
    | ok m2 =>
      have hshape := removeIdx_ok_shape m i m2 hr
      have hrw : fav_ids m2
          = (m.favorites.eraseIdx (i - 1).toNat).map (fun l => l.id) := by
        rw [hshape]; rfl
      rw [hrw]
      exact ((List.eraseIdx_sublist _ _).map _).nodup h
  | clearOp => simp [applyOp, clear_favorites, fav_ids]
  | setCurrent i => exact h

/-- Every operation sequence preserves the no-duplicate-ids invariant. -/
theorem nodup_applyOps (ops : List FavOp) (m : FavoritesModel)
    (h : (fav_ids m).Nodup) : (fav_ids (applyOps m ops)).Nodup := by
  induction ops generalizing m with
  | nil => exact h
  | cons op rest ih => exact ih _ (nodup_applyOp m op h)

/-! ### Claims C6 - C10 -/

/-- Claim C6 counterexample: the claim quantifies over every Favorites List,
but logging out an empty one raises the EmptyList failure from
get_all_favorites before any write is attempted - the update-only write the
claim promises never happens, and the error is not UserNotFound. -/
theorem c6_logout_empty_counterexample :
    logout_user store7 7 favInit = Except.error Err.emptyList := rfl

/-- Claim C6 (amended): for every session store and every NONEMPTY favorites
model, logout serializes the favorites in list order, performs the
update-only write, fails with UserNotFound when no document matched (the
inputs are untouched: no state is returned), and clears the favorites when
the write matched; an empty favorites model instead fails with EmptyList
before any write. -/
theorem c6_logout_amended (store : SessionStore) (user_id : Int)
    (m : FavoritesModel) (hne : m.favorites ≠ []) :
    (matchedCount store user_id = 0 →
      logout_user store user_id m = Except.error Err.userNotFound) ∧
    (matchedCount store user_id ≠ 0 →
      logout_user store user_id m =
        Except.ok (setFavoritesDoc store user_id (m.favorites.map to_dict),
                   FavoritesModel.mk m.favorite_location [])) := by
  constructor
  · intro h0
    simp [logout_user, get_all_favorites, check_if_empty, hne, h0]
  · intro h0
    simp [logout_user, get_all_favorites, check_if_empty, hne, h0, clear_favorites]

/-- Witness for C6 at a concrete matching session and one-element list. -/
theorem c6_logout_amended_witness :
    logout_user store7 7 (FavoritesModel.mk 1 [bostonRow]) =
      Except.ok (setFavoritesDoc store7 7 ([bostonRow].map to_dict),
                 FavoritesModel.mk 1 []) :=
  (c6_logout_amended store7 7 (FavoritesModel.mk 1 [bostonRow]) (by decide)).2
    (by decide)

/-- Claim C7: set_favorite_by_index stores the given index unconditionally
(no bounds check, favorites untouched), and on a 2-element list a stored
current index of 99 makes the next get_current_favorite fail with the
InvalidIndex failure - validation happens only at read time. -/
theorem c7_set_current_deferred (m : FavoritesModel) (index : Int)
    (h2 : m.favorites.length = 2) :
    set_favorite_by_index m index = FavoritesModel.mk index m.favorites ∧
    get_current_favorite (set_favorite_by_index m 99) =
      Except.error Err.invalidIndex := by
  refine ⟨rfl, ?_⟩
  have hne : m.favorites ≠ [] := by
    intro h
    rw [h] at h2
    simp at h2
  simp [get_current_favorite, set_favorite_by_index, check_if_empty, hne,
        get_location_by_index, validate_index, h2]

/-- Witness for C7 at a concrete 2-element list. -/
theorem c7_set_current_deferred_witness :
    set_favorite_by_index favTwo 5 = FavoritesModel.mk 5 favTwo.favorites ∧
    get_current_favorite (set_favorite_by_index favTwo 99) =
      Except.error Err.invalidIndex :=
  c7_set_current_deferred favTwo 5 (by decide)

/-- Claim C8 counterexample: with an empty favorites list (so no favorite
with the same id is present) adding a location whose id is -1 does not
append it - validate_location_id rejects the negative id with InvalidId
before the duplicate check, refuting the claim's "otherwise appends". -/
theorem c8_add_negative_id_counterexample :
    add_location_to_favorites favInit negIdLoc = Except.error Err.invalidId := rfl

/-- Claim C8 (amended): no two entries of the favorites list ever share an
id - the invariant holds after every operation sequence from a fresh model -
and for a location with a non-negative id, add fails with DuplicateId
(leaving the list unchanged: no new state is produced) exactly when the id
is already present, and otherwise appends the location at the end,
preserving insertion order; a negative id is rejected with InvalidId
instead. -/
theorem c8_no_duplicate_ids_amended (m : FavoritesModel) (l : Location)
    (ops : List FavOp) (h0 : 0 ≤ l.id) :
    (fav_ids (applyOps favInit ops)).Nodup ∧
    (l.id ∈ fav_ids m →
      add_location_to_favorites m l = Except.error Err.duplicateId) ∧
    (l.id ∉ fav_ids m →
      add_location_to_favorites m l =
        Except.ok (FavoritesModel.mk m.favorite_location (m.favorites ++ [l]))) := by
  have hneg : ¬ l.id < 0 := by omega
  refine ⟨nodup_applyOps ops favInit (by simp [favInit, fav_ids]), ?_, ?_⟩
  · intro hc
    rw [add_spec]
    simp [hneg, hc]
  · intro hc
    rw [add_spec]
    simp [hneg, hc]

/-- Witness for C8 at concrete inputs: a fresh model filled by two adds has
no duplicate ids, and re-adding an already present id fails DuplicateId. -/
theorem c8_no_duplicate_ids_amended_witness :
    (fav_ids (applyOps favInit [FavOp.addLoc bostonRow, FavOp.addLoc nyRow])).Nodup ∧
    add_location_to_favorites (FavoritesModel.mk 1 [bostonRow]) bostonRow =
      Except.error Err.duplicateId := by
  refine ⟨(c8_no_duplicate_ids_amended favInit bostonRow
      [FavOp.addLoc bostonRow, FavOp.addLoc nyRow] (by decide)).1, ?_⟩
  exact (c8_no_duplicate_ids_amended (FavoritesModel.mk 1 [bostonRow]) bostonRow
      [] (by decide)).2.1 (by decide)

/-- Claim C9: the claim says the weather snapshot is the fixed-order record
(name, latitude, longitude, temperature, wind speed, uv-index-or-rain) and
that weather_for_all_favorites concatenates it over the list.  Evaluating
the code at the failing input: the sixth attribute access is
location.current_uvi, a field the Locations entity does not have (it has
current_rain), so get_weather_for_location raises AttributeError on every
actual Locations value and get_weather_for_all_favorites does too on any
non-empty list; no snapshot is ever produced. -/
theorem c9_weather_snapshot_attribute_error :
    get_weather_for_location bostonRow = Except.error Err.attributeError ∧
    get_weather_for_all_favorites favTwo = Except.error Err.attributeError := by
  exact ⟨rfl, rfl⟩

/-- Claim C10: clear_favorites empties the list and never fails (it is a
total operation), it leaves the current-favorite position unchanged, every
operation other than set_favorite_by_index leaves that position unchanged,
and a position set before a clear still governs the model afterwards. -/
theorem c10_clear_frame (m : FavoritesModel) (op : FavOp)
    (hop : writes_current op = false) :
    (clear_favorites m).favorites = [] ∧
    (clear_favorites m).favorite_location = m.favorite_location ∧
    (applyOp m op).favorite_location = m.favorite_location ∧
    (clear_favorites (set_favorite_by_index m 2)).favorite_location = 2 := by
  refine ⟨rfl, rfl, ?_, rfl⟩
  cases op with
  | addLoc l =>
    simp only [applyOp, add_spec]
    by_cases h0 : l.id < 0
    · simp [h0]
    · by_cases hc : l.id ∈ fav_ids m
      · simp [h0, hc]
      · simp [h0, hc]
  | removeId i =>
    simp only [applyOp]
    cases hr : remove_location_by_location_id m i with
    | error e => rfl
    | ok m2 => rw [removeId_ok_shape m i m2 hr]
  | removeIdx i =>
    simp only [applyOp]
    cases hr : remove_location_by_index m i with
    | error e => rfl
    | ok m2 => rw [removeIdx_ok_shape m i m2 hr]
  | clearOp => rfl
  | setCurrent i => simp [writes_current] at hop

/-- Witness for C10 at a concrete model and a concrete non-writing
operation. -/
theorem c10_clear_frame_witness :
    (clear_favorites favTwo).favorites = [] ∧
    (clear_favorites favTwo).favorite_location = favTwo.favorite_location ∧
    (applyOp favTwo FavOp.clearOp).favorite_location = favTwo.favorite_location ∧
    (clear_favorites (set_favorite_by_index favTwo 2)).favorite_location = 2 :=
  c10_clear_frame favTwo FavOp.clearOp rfl
